import Mathlib

/-!
# Verification of the docker-build-server build pipeline and log distribution

A shallow embedding of `src/main.go`: the log-sink registry (the `clients`
map and `LogStreamer.Write`), the build pipeline goroutine spawned by
`buildHandler`, the image-tagging expressions of `buildHandler` and
`deployHandler`, and a trace-level model of what a registered log
subscriber observes.

External effects (process exit statuses, the bytes the child processes
emit, database errors) are supplied by an `Env` oracle; the Lean
definitions reproduce the Go control flow over that oracle.
-/

namespace DockerBuildServer

/-- A chunk of bytes, as handed to `LogStreamer.Write` (`p []byte`). -/
abbrev Chunk := List Nat

/-- A websocket connection (`*websocket.Conn`). `sendOk` is an oracle for
whether `conn.WriteMessage` on this connection succeeds; `cid` identifies
the connection. -/
structure Conn where
  cid : Nat
  sendOk : Bool
deriving DecidableEq, Repr

/-- The global `clients` map (`map[string]*websocket.Conn`,
src/main.go:26), keyed by build id. Being a map, it holds at most one
connection per build id by construction. -/
abbrev Registry : Type := String → Option Conn

/-- The registration step of `logsHandler` (src/main.go:230-232):
`clients[buildId] = conn` — plain map assignment, so a prior entry for the
same id is overwritten and no error is possible. -/
def register (m : Registry) (buildId : String) (conn : Conn) : Registry :=
  fun k => if k = buildId then some conn else m k

/-- `conn.WriteMessage(websocket.TextMessage, p)`: returns an error value
that the caller may discard. -/
def wsSend (c : Conn) (_p : Chunk) : Option String :=
  if c.sendOk then none else some "websocket send failed"

/-- `LogStreamer.Write` (src/main.go:50-57): under the mutex, if a
connection is registered for the build id, forward the bytes to it —
discarding the error `WriteMessage` returns — and in every case return
`(len(p), nil)`. The second component records the deliveries attempted
(connection id, bytes), for trace-level reasoning. -/
def logStreamerWrite (m : Registry) (buildId : String) (p : Chunk) :
    (Nat × Option String) × List (Nat × Chunk) :=
  match m buildId with
  | some c =>
      let _discardedErr := wsSend c p
      ((p.length, none), [(c.cid, p)])
  | none => ((p.length, none), [])

/-- Go `unicode.IsSpace` on a code point: tab, line feed, vertical tab,
form feed, carriage return, space, U+0085, U+00A0 from Latin-1, plus the
Unicode White_Space code points. -/
def goIsSpace (c : Char) : Bool :=
  let n := c.toNat
  (n = 32) || (9 ≤ n && n ≤ 13) || (n = 133) || (n = 160) ||
  (n = 0x1680) || (0x2000 ≤ n && n ≤ 0x200A) ||
  (n = 0x2028) || (n = 0x2029) || (n = 0x202F) || (n = 0x205F) || (n = 0x3000)

/-- `strings.TrimSpace` (used at src/main.go:146): drop leading and
trailing white space (per `unicode.IsSpace`) from the string. -/
def trimSpace (s : String) : String :=
  String.mk (((s.data.dropWhile goIsSpace).reverse.dropWhile goIsSpace).reverse)

/-- `fmt.Sprintf("myapp:%s", commitID)` in the build pipeline
(src/main.go:149). -/
def buildImageName (commitID : String) : String := "myapp:" ++ commitID

/-- `fmt.Sprintf("myapp:%s", req.CommitID)` in `deployHandler`
(src/main.go:244). -/
def deployImageName (commitID : String) : String := "myapp:" ++ commitID

/-- The oracle for the external effects of one pipeline run:
- `cloneChunks` / `cloneOk`: bytes `git clone` streams to the
  `LogStreamer`s and whether `cmd.Run()` returns nil (src/main.go:131-137);
- `revParse`: `some raw` when the `cmd.Output()` call for
  `git rev-parse HEAD` succeeds with output `raw`, `none` on error
  (src/main.go:140-145);
- `buildChunks` / `buildOk`: same for `docker buildx build`
  (src/main.go:150-156);
- `saveErr`: the error `saveBuild` returns, if any (src/main.go:159);
- `removeErr`: the error `os.RemoveAll` returns, if any (src/main.go:164). -/
structure Env where
  cloneChunks : List Chunk
  cloneOk : Bool
  revParse : Option String
  buildChunks : List Chunk
  buildOk : Bool
  saveErr : Option String
  removeErr : Option String
deriving Repr

/-- What one run of the goroutine of `buildHandler` did:
- `commitID`: final value of the `commitID` variable;
- `imageName`: the tag computed at src/main.go:149, if that line ran;
- `imageBuilt`: whether the `docker buildx build` step completed
  successfully;
- `saveArgs`: the `(buildID, repoURL, commitID)` triple passed to
  `saveBuild`, if it was called;
- `saveErrLogged`: whether the `saveBuild` error branch logged an error;
- `cleanupInvoked`: whether `os.RemoveAll(repoDir)` (src/main.go:164) ran;
- `completeInvoked`: whether the terminal notification block
  (src/main.go:169-175) ran. -/
structure RunResult where
  commitID : String
  imageName : Option String
  imageBuilt : Bool
  saveArgs : Option (String × String × String)
  saveErrLogged : Bool
  cleanupInvoked : Bool
  completeInvoked : Bool
deriving DecidableEq, Repr

/-- The goroutine launched by `buildHandler` (src/main.go:129-177),
translated branch for branch. Each failed step logs and `return`s —
nothing after the `return` runs. On the surviving path, a `saveBuild`
error is only logged, then `os.RemoveAll` and the terminal notification
block both run. -/
def buildGoroutine (env : Env) (repoUrl buildId : String) : RunResult :=
  if env.cloneOk then
    match env.revParse with
    | some raw =>
        let commitID := trimSpace raw
        let imageName := buildImageName commitID
        if env.buildOk then
          { commitID := commitID
            imageName := some imageName
            imageBuilt := true
            saveArgs := some (buildId, repoUrl, commitID)
            saveErrLogged := env.saveErr.isSome
            cleanupInvoked := true
            completeInvoked := true }
        else
          { commitID := commitID
            imageName := some imageName
            imageBuilt := false
            saveArgs := none
            saveErrLogged := false
            cleanupInvoked := false
            completeInvoked := false }
    | none =>
        { commitID := ""
          imageName := none
          imageBuilt := false
          saveArgs := none
          saveErrLogged := false
          cleanupInvoked := false
          completeInvoked := false }
  else
    { commitID := ""
      imageName := none
      imageBuilt := false
      saveArgs := none
      saveErrLogged := false
      cleanupInvoked := false
      completeInvoked := false }

/-- The JSON body `buildHandler` returns (src/main.go:41-44, 178-179). -/
structure BuildResponse where
  buildId : String
  commitID : String
deriving DecidableEq, Repr

/-- The response `buildHandler` writes: `BuildResponse{BuildId: buildId}`
(src/main.go:178) — `CommitID` is left at its zero value `""`. -/
def buildHandlerResponse (buildId : String) : BuildResponse :=
  { buildId := buildId, commitID := "" }

/-- `buildHandler` (src/main.go:120-181): spawns the goroutine and,
independently of anything the goroutine does, encodes the response. -/
def buildHandlerRun (env : Env) (repoUrl buildId : String) :
    BuildResponse × RunResult :=
  (buildHandlerResponse buildId, buildGoroutine env repoUrl buildId)

/-- Registry-visible events of one pipeline run, in program order:
`write` is a `LogStreamer.Write` call, `removeDir` the cleanup, and
`complete` the terminal block (sentinel + close + delete from map). -/
inductive Event where
  | write (chunk : Chunk)
  | removeDir
  | complete
deriving DecidableEq, Repr

/-- The sequence of registry-visible events the goroutine produces, from
the same control flow as `buildGoroutine`: clone output is streamed even
when the clone then fails; the rev-parse step captures its output without
streaming it (`cmd.Output()`, src/main.go:141); build output is streamed;
`removeDir` and `complete` happen only on the all-steps-succeeded path. -/
def pipelineTrace (env : Env) : List Event :=
  env.cloneChunks.map Event.write ++
    (if env.cloneOk then
      match env.revParse with
      | some _ =>
          env.buildChunks.map Event.write ++
            (if env.buildOk then [Event.removeDir, Event.complete] else [])
      | none => []
    else [])

/-- The bytes of the literal `"BUILD_COMPLETE"` text frame
(src/main.go:171). -/
def sentinelChunk : Chunk := "BUILD_COMPLETE".data.map Char.toNat

/-- What a subscriber registered at the head of the given event suffix
observes, assuming it stays registered (no later registration for the
same id): each `write` forwards its chunk (src/main.go:53-55); `removeDir`
is invisible; `complete` delivers the sentinel frame, closes the
connection and removes it from the map, so nothing later is seen
(src/main.go:169-175). Returns (frames received, connection closed?). -/
def subscriberView : List Event → List Chunk × Bool
  | [] => ([], false)
  | Event.write c :: rest =>
      ((c :: (subscriberView rest).1), (subscriberView rest).2)
  | Event.removeDir :: rest => subscriberView rest
  | Event.complete :: _ => ([sentinelChunk], true)

/-- The chunks carried by the `write` events of a trace, in order: the log
bytes the pipeline emits over that span. -/
def writeChunks : List Event → List Chunk
  | [] => []
  | Event.write c :: rest => c :: writeChunks rest
  | Event.removeDir :: rest => writeChunks rest
  | Event.complete :: rest => writeChunks rest

/-- A sample registry holding one connection, for build id `"a"`. -/
def sampleRegistry : Registry :=
  fun k => if k = "a" then some ⟨0, true⟩ else none

/-- A registry with no subscribers at all. -/
def emptyRegistry : Registry := fun _ => none

/-! ## Helper lemmas -/

/-- A subscriber watching a span of `write` events followed by the cleanup
and terminal events receives exactly the written chunks, then the
sentinel, and is closed. -/
theorem subscriberView_write_events (ws : List Chunk) :
    subscriberView (ws.map Event.write ++ [Event.removeDir, Event.complete])
      = (ws ++ [sentinelChunk], true) := by
  induction ws with
  | nil => rfl
  | cons c t ih => simp [subscriberView, ih]

/-- `writeChunks` recovers the chunk list from a span of `write` events
followed by the cleanup and terminal events. -/
theorem writeChunks_write_events (ws : List Chunk) :
    writeChunks (ws.map Event.write ++ [Event.removeDir, Event.complete]) = ws := by
  induction ws with
  | nil => rfl
  | cons c t ih => simp [writeChunks, ih]

/-! ## Claims -/

/-- Claim C1, as stated, is false on the code: in a run whose `git clone`
step fails, the goroutine returns at src/main.go:136 before ever reaching
`os.RemoveAll` (src/main.go:164), so the cleanup step does not run even
though the run is terminal. Concretely, with the clone failing and every
later oracle benign, `cleanupInvoked` is `false`. -/
theorem c1_counterexample :
    (buildGoroutine (⟨[], false, some "abc", [], true, none, none⟩ : Env)
        "url" "id").cleanupInvoked = false := by rfl

/-- Claim C1, amended: the cleanup step (`os.RemoveAll` on the workspace)
runs exactly when the clone, commit-resolution and image-build steps all
succeed; on any earlier failure the goroutine returns early and the
workspace directory is not removed. (A failure of the store write does
not block cleanup; a failure of the removal itself is only logged.) -/
theorem c1_cleanup_only_on_success (env : Env) (u b : String) :
    (buildGoroutine env u b).cleanupInvoked
      = (env.cloneOk && env.revParse.isSome && env.buildOk) := by
  obtain ⟨cc, co, rp, bc, bo, se, re⟩ := env
  cases co <;> cases rp <;> cases bo <;> rfl

/-- Claim C2, as stated, is false on the code: in a run whose commit
resolution fails, the goroutine returns at src/main.go:144 and the
terminal notification block (src/main.go:169-175) — the `completeAndClose`
of the spec — never runs, so a registered subscriber receives no sentinel
and stays in the registry. -/
theorem c2_counterexample :
    (buildGoroutine (⟨[], true, none, [], true, none, none⟩ : Env)
        "url" "id").completeInvoked = false := by rfl

/-- Claim C2, amended: the terminal block (sentinel + close + deregister)
runs exactly when the clone, commit-resolution and image-build steps all
succeed; every step failure skips it, so only successful runs deliver the
terminal sentinel. -/
theorem c2_complete_only_on_success (env : Env) (u b : String) :
    (buildGoroutine env u b).completeInvoked
      = (env.cloneOk && env.revParse.isSome && env.buildOk) := by
  obtain ⟨cc, co, rp, bc, bo, se, re⟩ := env
  cases co <;> cases rp <;> cases bo <;> rfl

/-- Claim C3, as stated, is false on the code: in a run whose clone step
fails, a subscriber registered from the very start (hence before any
cleanup) receives the clone output but never a sentinel frame and is
never closed, because the goroutine returns before the terminal block. -/
theorem c3_counterexample :
    (subscriberView (pipelineTrace
        (⟨[[101]], false, some "abc", [], true, none, none⟩ : Env))).2 = false
    ∧ sentinelChunk ∉ (subscriberView (pipelineTrace
        (⟨[[101]], false, some "abc", [], true, none, none⟩ : Env))).1 := by
  decide

/-- Claim C3, amended: in a run whose clone, commit-resolution and
image-build steps all succeed, a subscriber that registers before the
cleanup step (at position `r` of the event trace, no later than the last
log write) and stays registered receives exactly the log chunks emitted
from its registration onward, in emission order, followed by exactly one
terminal sentinel frame, and is then closed. -/
theorem c3_subscriber_receives_logs_then_sentinel (env : Env) (raw : String)
    (r : Nat) (hc : env.cloneOk = true) (hr : env.revParse = some raw)
    (hb : env.buildOk = true)
    (hreg : r ≤ env.cloneChunks.length + env.buildChunks.length) :
    subscriberView ((pipelineTrace env).drop r)
      = (writeChunks ((pipelineTrace env).drop r) ++ [sentinelChunk], true) := by
  have htr : pipelineTrace env
      = ((env.cloneChunks ++ env.buildChunks).map Event.write)
          ++ [Event.removeDir, Event.complete] := by
    simp [pipelineTrace, hc, hr, hb]
  have hlen : r ≤ ((env.cloneChunks ++ env.buildChunks).map Event.write).length := by
    simpa using hreg
  rw [htr, List.drop_append_of_le_length hlen, ← List.map_drop]
  rw [subscriberView_write_events, writeChunks_write_events]

/-- Witness for C3: a successful run with one clone chunk and one build
chunk, subscriber registered at position 1 (after the clone output,
before cleanup). -/
theorem c3_witness :
    (⟨[[97]], true, some "abc", [[98]], true, none, none⟩ : Env).cloneOk = true
    ∧ (⟨[[97]], true, some "abc", [[98]], true, none, none⟩ : Env).revParse = some "abc"
    ∧ (⟨[[97]], true, some "abc", [[98]], true, none, none⟩ : Env).buildOk = true
    ∧ 1 ≤ (⟨[[97]], true, some "abc", [[98]], true, none, none⟩ : Env).cloneChunks.length
        + (⟨[[97]], true, some "abc", [[98]], true, none, none⟩ : Env).buildChunks.length
    ∧ subscriberView ((pipelineTrace
          (⟨[[97]], true, some "abc", [[98]], true, none, none⟩ : Env)).drop 1)
        = (writeChunks ((pipelineTrace
              (⟨[[97]], true, some "abc", [[98]], true, none, none⟩ : Env)).drop 1)
            ++ [sentinelChunk], true) :=
  ⟨rfl, rfl, rfl, by decide,
    c3_subscriber_receives_logs_then_sentinel _ "abc" 1 rfl rfl rfl (by decide)⟩

/-- Claim C4: `buildHandler` encodes `BuildResponse{BuildId: buildId}`
(src/main.go:178-179) without consulting anything the goroutine computes:
the response is identical for any two pipeline oracles, carries the
freshly minted id, and its `CommitID` field is the zero value `""`. -/
theorem c4_immediate_response (envA envB : Env) (u1 u2 b : String) :
    (buildHandlerRun envA u1 b).1 = (buildHandlerRun envB u2 b).1
    ∧ (buildHandlerRun envA u1 b).1.buildId = b
    ∧ (buildHandlerRun envA u1 b).1.commitID = "" :=
  ⟨rfl, rfl, rfl⟩

/-- Claim C5: the tag computed by the build step (src/main.go:149) and
the tag computed by `deployHandler` (src/main.go:244) agree on every
commit hash, and both equal the fixed application name `myapp`, a colon,
and the hash. -/
theorem c5_image_tag_round_trip (c : String) :
    buildImageName c = deployImageName c ∧ deployImageName c = "myapp:" ++ c :=
  ⟨rfl, rfl⟩

/-- Claim C6: when clone, resolution and image build succeed but
`saveBuild` returns an error, the error is logged (src/main.go:160) and
the pipeline continues: the image build stands, and both the cleanup and
the terminal notification block still run. -/
theorem c6_save_failure_does_not_abort (env : Env) (u b raw e : String)
    (hc : env.cloneOk = true) (hr : env.revParse = some raw)
    (hb : env.buildOk = true) (hs : env.saveErr = some e) :
    (buildGoroutine env u b).imageBuilt = true
    ∧ (buildGoroutine env u b).saveErrLogged = true
    ∧ (buildGoroutine env u b).cleanupInvoked = true
    ∧ (buildGoroutine env u b).completeInvoked = true := by
  simp [buildGoroutine, hc, hr, hb, hs]

/-- Witness for C6: a run where every external step succeeds but the
database insert fails. -/
theorem c6_witness :
    (⟨[], true, some "abc", [], true, some "db down", none⟩ : Env).cloneOk = true
    ∧ (⟨[], true, some "abc", [], true, some "db down", none⟩ : Env).revParse = some "abc"
    ∧ (⟨[], true, some "abc", [], true, some "db down", none⟩ : Env).buildOk = true
    ∧ (⟨[], true, some "abc", [], true, some "db down", none⟩ : Env).saveErr = some "db down"
    ∧ ((buildGoroutine (⟨[], true, some "abc", [], true, some "db down", none⟩ : Env)
          "u" "b").imageBuilt = true
      ∧ (buildGoroutine (⟨[], true, some "abc", [], true, some "db down", none⟩ : Env)
          "u" "b").saveErrLogged = true
      ∧ (buildGoroutine (⟨[], true, some "abc", [], true, some "db down", none⟩ : Env)
          "u" "b").cleanupInvoked = true
      ∧ (buildGoroutine (⟨[], true, some "abc", [], true, some "db down", none⟩ : Env)
          "u" "b").completeInvoked = true) :=
  ⟨rfl, rfl, rfl, rfl,
    c6_save_failure_does_not_abort _ "u" "b" "abc" "db down" rfl rfl rfl rfl⟩

/-- Claim C7: registration is a plain map assignment
(`clients[buildId] = conn`, src/main.go:231): if a prior subscriber is
registered for the id, the new one unconditionally replaces it — the
lookup for that id now yields the new connection — every other key is
untouched, and no error path exists. The map holds at most one
connection per id by construction. -/
theorem c7_register_replaces (m : Registry) (id k : String) (c prev : Conn)
    (_hprior : m id = some prev) (hk : k ≠ id) :
    register m id c id = some c ∧ register m id c k = m k := by
  constructor
  · simp [register]
  · simp [register, hk]

/-- Witness for C7: a registry already holding connection 0 for id `"a"`;
registering connection 1 replaces it and leaves id `"b"` untouched. -/
theorem c7_witness :
    sampleRegistry "a" = some ⟨0, true⟩
    ∧ "b" ≠ "a"
    ∧ register sampleRegistry "a" ⟨1, true⟩ "a" = some ⟨1, true⟩
    ∧ register sampleRegistry "a" ⟨1, true⟩ "b" = sampleRegistry "b" :=
  ⟨by decide, by decide,
    (c7_register_replaces sampleRegistry "a" "b" ⟨1, true⟩ ⟨0, true⟩
      (by decide) (by decide)).1,
    (c7_register_replaces sampleRegistry "a" "b" ⟨1, true⟩ ⟨0, true⟩
      (by decide) (by decide)).2⟩

/-- Claim C8: a `LogStreamer.Write` for a build id with no registered
subscriber forwards nothing and still reports full success
(`(len(p), nil)`); and since no step of the goroutine depends on
delivery, a run whose external steps succeed reaches the terminal block
whether or not anyone ever subscribed. -/
theorem c8_missing_subscriber_noop (m : Registry) (id : String) (p : Chunk)
    (env : Env) (u b raw : String) (hm : m id = none)
    (hc : env.cloneOk = true) (hr : env.revParse = some raw)
    (hb : env.buildOk = true) :
    logStreamerWrite m id p = ((p.length, none), [])
    ∧ (buildGoroutine env u b).completeInvoked = true := by
  constructor
  · simp [logStreamerWrite, hm]
  · simp [buildGoroutine, hc, hr, hb]

/-- Witness for C8: the empty registry and a fully successful run. -/
theorem c8_witness :
    emptyRegistry "b1" = none
    ∧ (⟨[], true, some "abc", [], true, none, none⟩ : Env).cloneOk = true
    ∧ (⟨[], true, some "abc", [], true, none, none⟩ : Env).revParse = some "abc"
    ∧ (⟨[], true, some "abc", [], true, none, none⟩ : Env).buildOk = true
    ∧ (logStreamerWrite emptyRegistry "b1" [104, 105] = ((2, none), [])
      ∧ (buildGoroutine (⟨[], true, some "abc", [], true, none, none⟩ : Env)
          "u" "b1").completeInvoked = true) :=
  ⟨rfl, rfl, rfl, rfl,
    c8_missing_subscriber_noop emptyRegistry "b1" [104, 105] _ "u" "b1" "abc"
      rfl rfl rfl rfl⟩

/-- Claim C9: after a successful resolution step, the `commitID` the
goroutine keeps is `strings.TrimSpace` of the raw `git rev-parse HEAD`
output (src/main.go:146), and that trimmed value is exactly what is
passed to `saveBuild` and what the image tag is built from. -/
theorem c9_commit_trimmed (env : Env) (u b raw : String)
    (hc : env.cloneOk = true) (hr : env.revParse = some raw)
    (hb : env.buildOk = true) :
    (buildGoroutine env u b).commitID = trimSpace raw
    ∧ (buildGoroutine env u b).saveArgs = some (b, u, trimSpace raw)
    ∧ (buildGoroutine env u b).imageName = some (buildImageName (trimSpace raw)) := by
  simp [buildGoroutine, hc, hr, hb]

/-- Witness for C9: a successful run whose rev-parse output carries
surrounding whitespace. -/
theorem c9_witness :
    (⟨[], true, some "  abc\n", [], true, none, none⟩ : Env).cloneOk = true
    ∧ (⟨[], true, some "  abc\n", [], true, none, none⟩ : Env).revParse = some "  abc\n"
    ∧ (⟨[], true, some "  abc\n", [], true, none, none⟩ : Env).buildOk = true
    ∧ ((buildGoroutine (⟨[], true, some "  abc\n", [], true, none, none⟩ : Env)
          "u" "b").commitID = trimSpace "  abc\n"
      ∧ (buildGoroutine (⟨[], true, some "  abc\n", [], true, none, none⟩ : Env)
          "u" "b").saveArgs = some ("b", "u", trimSpace "  abc\n")
      ∧ (buildGoroutine (⟨[], true, some "  abc\n", [], true, none, none⟩ : Env)
          "u" "b").imageName = some (buildImageName (trimSpace "  abc\n"))) :=
  ⟨rfl, rfl, rfl, c9_commit_trimmed _ "u" "b" "  abc\n" rfl rfl rfl⟩

/-- Claim C10: `LogStreamer.Write` returns `(len(p), nil)` on every input
and every registry state — in particular also when a connection is
registered for the id, whatever the fate of the underlying
`WriteMessage` (its error is discarded at src/main.go:54). The second
conjunct makes the registered case explicit for an arbitrary connection
`c`, including one whose sends fail. -/
theorem c10_write_always_succeeds (m : Registry) (id : String) (p : Chunk)
    (c : Conn) :
    (logStreamerWrite m id p).1 = (p.length, none)
    ∧ (logStreamerWrite (register m id c) id p).1 = (p.length, none) := by
  constructor
  · cases h : m id <;> simp [logStreamerWrite, h]
  · simp [logStreamerWrite, register]

end DockerBuildServer
